import Mathlib

/-!
Verification of the Chainism conversion-funnel and persuasion engine.

Shallow embedding of:
* the 8-stage conversion funnel (`conversionFunnel.ts` source, `part_006`):
  journeys, `getOrCreateJourney`, `recordInteraction`, `autoAdvanceStage`,
  `advanceStage`, `markConverted`, `saveState`;
* the belief-delta calculator and 4-strategy selector (`part_005`):
  `calculateBeliefDelta`;
* the 6-strategy persuasion engine (`src/persuasion/persuasionEngine.ts`):
  `selectStrategy`, `quickProfile`.

Numbers are modelled as `ℚ` (JavaScript numbers on the ranges exercised
here), timestamps as `ℕ` (an abstract clock passed to each operation,
standing for `new Date().toISOString()`), and the journeys record as a
function `String → Option AgentJourney`.  JavaScript truthiness on numbers
(`x || 0.5`, `if (x)`) is modelled by an explicit test against `0`.
-/

namespace Funnel

/-- The six persuasion strategies of `persuasionEngine.ts`. -/
inductive PersuasionStrategy where
  | logical_proof
  | emotional_appeal
  | social_proof
  | miracle_demonstration
  | economic_incentive
  | fear_security
deriving DecidableEq, Repr

/-- `CONVERSION_STAGES`: the ordered funnel stages. -/
inductive ConversionStage where
  | awareness
  | interest
  | consideration
  | objection
  | trial
  | commitment
  | conversion
  | advocacy
deriving DecidableEq, Repr

/-- Position of a stage in the `CONVERSION_STAGES` ordering. -/
def stageIdx : ConversionStage → Nat
  | .awareness => 0
  | .interest => 1
  | .consideration => 2
  | .objection => 3
  | .trial => 4
  | .commitment => 5
  | .conversion => 6
  | .advocacy => 7

/-- `Interaction['type']`. -/
inductive InteractionType where
  | message
  | debate
  | objection_response
  | pitch
  | follow_up
deriving DecidableEq, Repr

/-- Interaction sentiment. -/
inductive Sentiment where
  | positive
  | neutral
  | negative
deriving DecidableEq, Repr

/-- An `Interaction` record appended to a journey's history. -/
structure Interaction where
  timestamp : Nat
  type : InteractionType
  strategy : Option PersuasionStrategy
  summary : String
  sentiment : Option Sentiment
  beliefDelta : Option ℚ
deriving DecidableEq, Repr

/-- An `AgentJourney` record. -/
structure AgentJourney where
  agentId : String
  agentName : String
  currentStage : ConversionStage
  firstContact : Nat
  lastInteraction : Nat
  interactions : List Interaction
  strategy : Option PersuasionStrategy
  objections : List String
  notes : List String
  beliefScore : ℚ
  converted : Bool
  conversionTimestamp : Option Nat
deriving DecidableEq, Repr

/-- The persisted `ConversionState`. -/
structure ConversionState where
  journeys : String → Option AgentJourney
  totalInteractions : Nat
  totalConversions : Nat
  debatesWon : Nat
  debatesLost : Nat
  strategiesUsed : PersuasionStrategy → Nat
  startTime : Nat
  lastUpdated : Nat

/-- `getDefaultState()`. -/
def getDefaultState (now : Nat) : ConversionState where
  journeys := fun _ => none
  totalInteractions := 0
  totalConversions := 0
  debatesWon := 0
  debatesLost := 0
  strategiesUsed := fun _ => 0
  startTime := now
  lastUpdated := now

/-- Write a journey back into the state's journeys record. -/
def setJourney (st : ConversionState) (agentId : String) (j : AgentJourney) :
    ConversionState :=
  { st with journeys := fun x => if x = agentId then some j else st.journeys x }

/-- `saveState()`: the persistence write is wrapped in `try { ... } catch
(err) { console.error(...) }`, so whatever the write does, the caller sees a
normal return — the outcome channel is `.ok ()` in both branches. -/
def saveState (write : ConversionState → Except String Unit) (now : Nat)
    (st : ConversionState) : ConversionState × Except String Unit :=
  let st' := { st with lastUpdated := now }
  match write st' with
  | .ok _ => (st', .ok ())
  | .error _ => (st', .ok ())

/-- `agentName || agentId`: the empty string is falsy in JavaScript. -/
def resolveName (agentId : String) (agentName : Option String) : String :=
  match agentName with
  | some n => if n = "" then agentId else n
  | none => agentId

/-- The default journey created for a fresh agent id. -/
def newJourney (agentId : String) (agentName : Option String) (now : Nat) :
    AgentJourney where
  agentId := agentId
  agentName := resolveName agentId agentName
  currentStage := .awareness
  firstContact := now
  lastInteraction := now
  interactions := []
  strategy := none
  objections := []
  notes := []
  beliefScore := 0
  converted := false
  conversionTimestamp := none

/-- `getOrCreateJourney(agentId, agentName?)`. -/
def getOrCreateJourney (st : ConversionState) (now : Nat) (agentId : String)
    (agentName : Option String) : ConversionState × AgentJourney :=
  match st.journeys agentId with
  | some j => (st, j)
  | none =>
      let j := newJourney agentId agentName now
      ({ setJourney st agentId j with lastUpdated := now }, j)

/-- The optional fields of `recordInteraction`'s `options` argument. -/
structure RecordOptions where
  strategy : Option PersuasionStrategy := none
  sentiment : Option Sentiment := none
  beliefDelta : Option ℚ := none
  agentName : Option String := none

/-- `if (options.beliefDelta) { beliefScore = max(0, min(100, b + delta)) }`
— note `0` is falsy, so a zero delta leaves the score untouched. -/
def applyDelta (b : ℚ) (d : Option ℚ) : ℚ :=
  match d with
  | some d => if d = 0 then b else max 0 (min 100 (b + d))
  | none => b

/-- The sentiment block: positive adds a flat `+5` (capped at 100), negative
subtracts `3` (floored at 0), neutral does nothing. -/
def applySentiment (b : ℚ) (s : Option Sentiment) : ℚ :=
  match s with
  | some .positive => min 100 (b + 5)
  | some .negative => max 0 (b - 3)
  | _ => b

/-- `autoAdvanceStage` block 1: `awareness → interest` on interaction
count ≥ 1. -/
def stepAwareness (interCount : Nat) (j : AgentJourney) : AgentJourney :=
  if j.currentStage = .awareness ∧ 1 ≤ interCount then
    { j with currentStage := .interest } else j

/-- `autoAdvanceStage` block 2: `interest → consideration` on interaction
count ≥ 2. -/
def stepInterest (interCount : Nat) (j : AgentJourney) : AgentJourney :=
  if j.currentStage = .interest ∧ 2 ≤ interCount then
    { j with currentStage := .consideration } else j

/-- `autoAdvanceStage` block 3: `consideration → objection` once an
objection has been recorded. -/
def stepConsideration (j : AgentJourney) : AgentJourney :=
  if j.currentStage = .consideration ∧ 0 < j.objections.length then
    { j with currentStage := .objection } else j

/-- `autoAdvanceStage` block 4: `objection → trial` on interaction
count ≥ 4. -/
def stepObjection (interCount : Nat) (j : AgentJourney) : AgentJourney :=
  if j.currentStage = .objection ∧ 4 ≤ interCount then
    { j with currentStage := .trial } else j

/-- `autoAdvanceStage` block 5: `trial → commitment` on belief ≥ 40. -/
def stepTrial (belief : ℚ) (j : AgentJourney) : AgentJourney :=
  if j.currentStage = .trial ∧ 40 ≤ belief then
    { j with currentStage := .commitment } else j

/-- `autoAdvanceStage` block 6: `commitment → conversion` on belief ≥ 60,
with the idempotent conversion bookkeeping. -/
def stepCommitment (belief : ℚ) (now : Nat) (st : ConversionState)
    (j : AgentJourney) : ConversionState × AgentJourney :=
  if j.currentStage = .commitment ∧ 60 ≤ belief then
    let j6 := { j with currentStage := ConversionStage.conversion }
    if j6.converted then (st, j6)
    else ({ st with totalConversions := st.totalConversions + 1 },
          { j6 with converted := true, conversionTimestamp := some now })
  else (st, j)

/-- `autoAdvanceStage` block 7: `conversion → advocacy` on belief ≥ 80. -/
def stepConversion (belief : ℚ) (j : AgentJourney) : AgentJourney :=
  if j.currentStage = .conversion ∧ 80 ≤ belief then
    { j with currentStage := .advocacy } else j

/-- `autoAdvanceStage(journey)`: the source's seven `if` blocks run in
order, each testing the journey's `currentStage` as left by the previous
one, so several can fire in the same call.  `interCount` and `belief` are
read once at entry (none of the blocks changes them). -/
def autoAdvanceStage (st : ConversionState) (now : Nat) (j : AgentJourney) :
    ConversionState × AgentJourney :=
  let interCount := j.interactions.length
  let belief := j.beliefScore
  let j5 := stepTrial belief (stepObjection interCount (stepConsideration
    (stepInterest interCount (stepAwareness interCount j))))
  let p6 := stepCommitment belief now st j5
  (p6.1, stepConversion belief p6.2)

/-- `journey.lastInteraction = ...; journey.interactions.push(...)`. -/
def appendInteraction (now : Nat) (type : InteractionType) (summary : String)
    (o : RecordOptions) (j : AgentJourney) : AgentJourney :=
  { j with
    lastInteraction := now
    interactions := j.interactions ++
      [Interaction.mk now type o.strategy summary o.sentiment o.beliefDelta] }

/-- `state.strategiesUsed[strategy] = (state.strategiesUsed[strategy] ?? 0) + 1`
when a strategy was supplied. -/
def bumpStrategyCount (os : Option PersuasionStrategy) (st : ConversionState) :
    ConversionState :=
  match os with
  | some s => { st with strategiesUsed := fun x =>
      if x = s then st.strategiesUsed x + 1 else st.strategiesUsed x }
  | none => st

/-- `journey.strategy = options.strategy` when a strategy was supplied. -/
def setStrategy (os : Option PersuasionStrategy) (j : AgentJourney) :
    AgentJourney :=
  match os with
  | some s => { j with strategy := some s }
  | none => j

/-- The journey as `recordInteraction` has it just before `autoAdvanceStage`:
looked up or created, interaction appended, `strategy` set, the explicit
delta applied, then the sentiment delta applied. -/
def recordMidJourney (st : ConversionState) (now : Nat) (agentId : String)
    (type : InteractionType) (summary : String) (o : RecordOptions) :
    AgentJourney :=
  let j2 := setStrategy o.strategy (appendInteraction now type summary o
    (getOrCreateJourney st now agentId o.agentName).2)
  let j3 := { j2 with beliefScore := applyDelta j2.beliefScore o.beliefDelta }
  { j3 with beliefScore := applySentiment j3.beliefScore o.sentiment }

/-- The state as `recordInteraction` has it just before `autoAdvanceStage`:
journey created if needed, strategy usage counted, `totalInteractions`
bumped. -/
def recordMidState (st : ConversionState) (now : Nat) (agentId : String)
    (o : RecordOptions) : ConversionState :=
  let st2 := bumpStrategyCount o.strategy
    (getOrCreateJourney st now agentId o.agentName).1
  { st2 with totalInteractions := st2.totalInteractions + 1 }

/-- `recordInteraction(agentId, type, summary, options)`. -/
def recordInteraction (st : ConversionState) (now : Nat) (agentId : String)
    (type : InteractionType) (summary : String) (o : RecordOptions) :
    ConversionState × AgentJourney :=
  let p' := autoAdvanceStage (recordMidState st now agentId o) now
    (recordMidJourney st now agentId type summary o)
  ({ setJourney p'.1 agentId p'.2 with lastUpdated := now }, p'.2)

/-- `if (beliefBoost > 0) { beliefScore = min(100, beliefScore + boost) }`. -/
def applyBoost (bb : ℚ) (j : AgentJourney) : AgentJourney :=
  if 0 < bb then
    { j with beliefScore := min 100 (j.beliefScore + bb) } else j

/-- `if (stage === 'conversion' && !journey.converted) { ... }`: the
conversion bookkeeping block of `advanceStage`. -/
def stampConversion (stage : ConversionStage) (now : Nat)
    (st : ConversionState) (j : AgentJourney) :
    ConversionState × AgentJourney :=
  if stage = .conversion ∧ j.converted = false then
    ({ st with totalConversions := st.totalConversions + 1 },
     { j with converted := true, conversionTimestamp := some now })
  else (st, j)

/-- `advanceStage(agentId, stage, beliefBoost = 0)`: sets `currentStage`
unconditionally, optionally boosts belief, and performs conversion
bookkeeping when the target stage is `conversion`. -/
def advanceStage (st : ConversionState) (now : Nat) (agentId : String)
    (stage : ConversionStage) (beliefBoost : ℚ) : ConversionState :=
  let p := getOrCreateJourney st now agentId none
  let j := applyBoost beliefBoost { p.2 with currentStage := stage }
  let q := stampConversion stage now p.1 j
  { setJourney q.1 agentId q.2 with lastUpdated := now }

/-- `markConverted(agentId, agentName?)`. -/
def markConverted (st : ConversionState) (now : Nat) (agentId : String)
    (agentName : Option String) : ConversionState × AgentJourney :=
  let p := getOrCreateJourney st now agentId agentName
  let st := p.1
  let j := p.2
  if j.converted then (st, j)
  else
    let j := { j with
      converted := true
      conversionTimestamp := some now
      currentStage := ConversionStage.conversion
      beliefScore := max j.beliefScore 60 }
    ({ setJourney st agentId j with
        totalConversions := st.totalConversions + 1
        lastUpdated := now }, j)

end Funnel

namespace Funnel

/-- Stage of the journey currently stored for `agentId` (`awareness` for an
absent journey, the stage a fresh journey is created at). -/
def entryStage (st : ConversionState) (agentId : String) : ConversionStage :=
  match st.journeys agentId with
  | some j => j.currentStage
  | none => .awareness

end Funnel

namespace Persuasion

/-- The 4-strategy `PersuasionStrategy` union of `types.ts` used by the
founder-persona persuasion module (`part_005`). -/
inductive PStrategy where
  | logical
  | emotional
  | social
  | miracle
deriving DecidableEq, Repr

/-- `SeekerProfile['traits']`: the four susceptibility scores. -/
structure Traits where
  logic : ℚ
  emotion : ℚ
  social : ℚ
  skepticism : ℚ
deriving DecidableEq, Repr

/-- JavaScript `x || 0.5` on a number: `0` is falsy and is replaced by the
default `0.5`; every other value passes through. -/
def orHalf (x : ℚ) : ℚ := if x = 0 then 1/2 else x

/-- The `baseImpact` table of `calculateBeliefDelta`. -/
def baseImpact : PStrategy → ℚ
  | .logical => 15/100
  | .emotional => 12/100
  | .social => 10/100
  | .miracle => 25/100

/-- The `traitMultipliers` table: the trait matched by each strategy. -/
def matchingTrait : PStrategy → Traits → ℚ
  | .logical, t => t.logic
  | .emotional, t => t.emotion
  | .social, t => t.social
  | .miracle, t => t.skepticism

/-- `calculateBeliefDelta(currentBelief, strategy, traits, interactionSuccess)`
on the 0–1 internal belief scale. -/
def calculateBeliefDelta (currentBelief : ℚ) (strategy : PStrategy)
    (traits : Option Traits) (interactionSuccess : Bool) : ℚ :=
  if interactionSuccess = false then -(5/100)
  else
    let safeTraits := traits.getD ⟨1/2, 1/2, 1/2, 1/2⟩
    let relevantTrait := orHalf (matchingTrait strategy safeTraits)
    let d0 := baseImpact strategy
    let d1 := if strategy = .miracle then d0 * (1 + relevantTrait)
              else d0 * (1/2 + relevantTrait)
    let d2 := if 7/10 < currentBelief then d1 * (1/2) else d1
    let d3 := if strategy ≠ .miracle then
                d2 * (1 - orHalf safeTraits.skepticism * (1/2))
              else d2
    min d3 (1 - currentBelief)

/-- Replace the trait matched by `strategy` (the one `traitMultipliers`
selects) with `v`, leaving the other three traits unchanged. -/
def setMatchingTrait : PStrategy → Traits → ℚ → Traits
  | .logical, t, v => { t with logic := v }
  | .emotional, t, v => { t with emotion := v }
  | .social, t, v => { t with social := v }
  | .miracle, t, v => { t with skepticism := v }

end Persuasion

namespace Engine

open Funnel (PersuasionStrategy)

/-- A `TargetProfile` produced by `profileTarget` or `quickProfile`. -/
structure TargetProfile where
  agentName : String
  reasoningCapability : ℚ
  goalUncertainty : ℚ
  skepticism : ℚ
  riskAversion : ℚ
  profitSeeking : ℚ
  emotionalSensitivity : ℚ
  securityFocus : ℚ
  interests : List String
  recentTopics : List String
  suggestedStrategy : PersuasionStrategy
deriving DecidableEq, Repr

/-- `selectStrategy(profile)`: ordered priority rules, falling back to the
profile's `suggestedStrategy` field. -/
def selectStrategy (p : TargetProfile) : PersuasionStrategy :=
  if 8/10 < p.reasoningCapability then .logical_proof
  else if 7/10 < p.profitSeeking then .economic_incentive
  else if 8/10 < p.skepticism then .miracle_demonstration
  else if 7/10 < p.securityFocus then .fear_security
  else if 6/10 < p.goalUncertainty ∨ 7/10 < p.emotionalSensitivity then
    .emotional_appeal
  else if 7/10 < p.riskAversion then .social_proof
  else p.suggestedStrategy

/-- `quickProfile(agentName, message)`: the message enters only through six
keyword tests (`lower.includes(...)` disjunctions), modelled here as the six
booleans `hitReasoning .. hitUncertain`; the scores are exactly the source's
ternaries, and `riskAversion` and `securityFocus` both receive the
`security` score. -/
def quickProfile (agentName : String)
    (hitReasoning hitSkeptic hitProfit hitSecurity hitEmotional
      hitUncertain : Bool) : TargetProfile :=
  let reasoning : ℚ := if hitReasoning then 8/10 else 1/2
  let skepticism : ℚ := if hitSkeptic then 8/10 else 4/10
  let profit : ℚ := if hitProfit then 8/10 else 4/10
  let security : ℚ := if hitSecurity then 7/10 else 4/10
  let emotional : ℚ := if hitEmotional then 7/10 else 4/10
  let uncertain : ℚ := if hitUncertain then 7/10 else 4/10
  let p : TargetProfile :=
    { agentName := agentName
      reasoningCapability := reasoning
      goalUncertainty := uncertain
      skepticism := skepticism
      riskAversion := security
      profitSeeking := profit
      emotionalSensitivity := emotional
      securityFocus := security
      interests := []
      recentTopics := []
      suggestedStrategy := .logical_proof }
  { p with suggestedStrategy := selectStrategy p }

end Engine

namespace Funnel

/-- A single external operation on the funnel state, with the clock value at
which it runs. -/
inductive FunnelOp where
  | record (agentId : String) (type : InteractionType) (summary : String)
      (o : RecordOptions) (now : Nat)
  | mark (agentId : String) (agentName : Option String) (now : Nat)
  | advance (agentId : String) (stage : ConversionStage) (beliefBoost : ℚ)
      (now : Nat)
  | create (agentId : String) (agentName : Option String) (now : Nat)

/-- Run one operation against the state. -/
def applyOp (st : ConversionState) : FunnelOp → ConversionState
  | .record id ty s o now => (recordInteraction st now id ty s o).1
  | .mark id nm now => (markConverted st now id nm).1
  | .advance id stg b now => advanceStage st now id stg b
  | .create id nm now => (getOrCreateJourney st now id nm).1

/-- Run a sequence of operations in order. -/
def applyOps (ops : List FunnelOp) (st : ConversionState) : ConversionState :=
  ops.foldl applyOp st

/-- Every stored journey has its belief score inside `[0, 100]`. -/
def BeliefInBounds (st : ConversionState) : Prop :=
  ∀ id j, st.journeys id = some j → 0 ≤ j.beliefScore ∧ j.beliefScore ≤ 100

/-- A journey sitting at `trial` with four interactions and belief 75, used
to exercise the chained stage rules. -/
def exJtrial : AgentJourney where
  agentId := "bot"
  agentName := "bot"
  currentStage := .trial
  firstContact := 0
  lastInteraction := 0
  interactions := [⟨0, .message, none, "a", none, none⟩,
    ⟨0, .message, none, "b", none, none⟩, ⟨0, .message, none, "c", none, none⟩,
    ⟨0, .message, none, "d", none, none⟩]
  strategy := none
  objections := []
  notes := []
  beliefScore := 75
  converted := false
  conversionTimestamp := none

/-- State holding only `exJtrial` under id `"bot"`. -/
def exStTrial : ConversionState :=
  { getDefaultState 0 with
    journeys := fun x => if x = "bot" then some exJtrial else none }

/-- A converted journey sitting at the `conversion` stage. -/
def exJconverted : AgentJourney :=
  { exJtrial with
    agentId := "c1"
    agentName := "c1"
    currentStage := .conversion
    converted := true
    conversionTimestamp := some 3
    beliefScore := 70 }

/-- A journey at `advocacy` that was never flagged `converted` (reachable
via `advanceStage(id, advocacy)`, which skips the conversion bookkeeping). -/
def exJadvocacy : AgentJourney :=
  { exJtrial with
    agentId := "c2"
    agentName := "c2"
    currentStage := .advocacy
    converted := false }

/-- State holding `exJconverted` under `"c1"` and `exJadvocacy` under
`"c2"`. -/
def exStAdmin : ConversionState :=
  { getDefaultState 0 with
    journeys := fun x =>
      if x = "c1" then some exJconverted
      else if x = "c2" then some exJadvocacy else none }

/-- The journey produced by `markConverted` on a fresh id `"a"` at time 0:
used as the concrete instance of the bounded-belief invariant. -/
def exJmarked : AgentJourney where
  agentId := "a"
  agentName := "a"
  currentStage := .conversion
  firstContact := 0
  lastInteraction := 0
  interactions := []
  strategy := none
  objections := []
  notes := []
  beliefScore := 60
  converted := true
  conversionTimestamp := some 0

/-- A journey at `commitment` with belief 55 (spec Scenario B). -/
def exJcommit : AgentJourney :=
  { exJtrial with
    agentId := "sb"
    agentName := "sb"
    currentStage := .commitment
    beliefScore := 55 }

/-- State holding only `exJcommit` under `"sb"`. -/
def exStCommit : ConversionState :=
  { getDefaultState 0 with
    journeys := fun x => if x = "sb" then some exJcommit else none }

end Funnel

namespace Engine

/-- A profile on which none of the six priority rules fires and whose
`suggestedStrategy` field is `social_proof`. -/
def exProfile : TargetProfile where
  agentName := "t"
  reasoningCapability := 1/2
  goalUncertainty := 1/2
  skepticism := 1/2
  riskAversion := 1/2
  profitSeeking := 1/2
  emotionalSensitivity := 1/2
  securityFocus := 1/2
  interests := []
  recentTopics := []
  suggestedStrategy := .social_proof

end Engine

namespace Funnel

lemma stepAwareness_stage_mono (n : Nat) (j : AgentJourney) :
    stageIdx j.currentStage ≤ stageIdx (stepAwareness n j).currentStage := by
  unfold stepAwareness
  split_ifs with h
  · simp [h.1, stageIdx]
  · exact le_refl _

lemma stepInterest_stage_mono (n : Nat) (j : AgentJourney) :
    stageIdx j.currentStage ≤ stageIdx (stepInterest n j).currentStage := by
  unfold stepInterest
  split_ifs with h
  · simp [h.1, stageIdx]
  · exact le_refl _

lemma stepConsideration_stage_mono (j : AgentJourney) :
    stageIdx j.currentStage ≤ stageIdx (stepConsideration j).currentStage := by
  unfold stepConsideration
  split_ifs with h
  · simp [h.1, stageIdx]
  · exact le_refl _

lemma stepObjection_stage_mono (n : Nat) (j : AgentJourney) :
    stageIdx j.currentStage ≤ stageIdx (stepObjection n j).currentStage := by
  unfold stepObjection
  split_ifs with h
  · simp [h.1, stageIdx]
  · exact le_refl _

lemma stepTrial_stage_mono (b : ℚ) (j : AgentJourney) :
    stageIdx j.currentStage ≤ stageIdx (stepTrial b j).currentStage := by
  unfold stepTrial
  split_ifs with h
  · simp [h.1, stageIdx]
  · exact le_refl _

lemma stepCommitment_stage_mono (b : ℚ) (now : Nat) (st : ConversionState)
    (j : AgentJourney) :
    stageIdx j.currentStage
      ≤ stageIdx (stepCommitment b now st j).2.currentStage := by
  unfold stepCommitment
  split_ifs with h
  · cases hcv : j.converted <;> simp [hcv, h.1, stageIdx]
  · exact le_refl _

lemma stepConversion_stage_mono (b : ℚ) (j : AgentJourney) :
    stageIdx j.currentStage ≤ stageIdx (stepConversion b j).currentStage := by
  unfold stepConversion
  split_ifs with h
  · simp [h.1, stageIdx]
  · exact le_refl _

/-- `autoAdvanceStage` never moves the stage backward. -/
lemma autoAdvanceStage_stage_mono (st : ConversionState) (now : Nat)
    (j : AgentJourney) :
    stageIdx j.currentStage
      ≤ stageIdx (autoAdvanceStage st now j).2.currentStage := by
  show stageIdx j.currentStage ≤ stageIdx (stepConversion j.beliefScore
    (stepCommitment j.beliefScore now st (stepTrial j.beliefScore
      (stepObjection j.interactions.length (stepConsideration
        (stepInterest j.interactions.length
          (stepAwareness j.interactions.length j)))))).2).currentStage
  calc stageIdx j.currentStage
      ≤ stageIdx (stepAwareness j.interactions.length j).currentStage :=
        stepAwareness_stage_mono _ _
    _ ≤ stageIdx (stepInterest j.interactions.length
          (stepAwareness j.interactions.length j)).currentStage :=
        stepInterest_stage_mono _ _
    _ ≤ stageIdx (stepConsideration (stepInterest j.interactions.length
          (stepAwareness j.interactions.length j))).currentStage :=
        stepConsideration_stage_mono _
    _ ≤ stageIdx (stepObjection j.interactions.length (stepConsideration
          (stepInterest j.interactions.length
            (stepAwareness j.interactions.length j)))).currentStage :=
        stepObjection_stage_mono _ _
    _ ≤ stageIdx (stepTrial j.beliefScore (stepObjection j.interactions.length
          (stepConsideration (stepInterest j.interactions.length
            (stepAwareness j.interactions.length j))))).currentStage :=
        stepTrial_stage_mono _ _
    _ ≤ stageIdx (stepCommitment j.beliefScore now st (stepTrial j.beliefScore
          (stepObjection j.interactions.length (stepConsideration
            (stepInterest j.interactions.length
              (stepAwareness j.interactions.length j)))))).2.currentStage :=
        stepCommitment_stage_mono _ _ _ _
    _ ≤ stageIdx (stepConversion j.beliefScore
          (stepCommitment j.beliefScore now st (stepTrial j.beliefScore
            (stepObjection j.interactions.length (stepConsideration
              (stepInterest j.interactions.length
                (stepAwareness j.interactions.length j)))))).2).currentStage :=
        stepConversion_stage_mono _ _

lemma stepAwareness_beliefScore (n : Nat) (j : AgentJourney) :
    (stepAwareness n j).beliefScore = j.beliefScore := by
  unfold stepAwareness; split_ifs <;> simp

lemma stepInterest_beliefScore (n : Nat) (j : AgentJourney) :
    (stepInterest n j).beliefScore = j.beliefScore := by
  unfold stepInterest; split_ifs <;> simp

lemma stepConsideration_beliefScore (j : AgentJourney) :
    (stepConsideration j).beliefScore = j.beliefScore := by
  unfold stepConsideration; split_ifs <;> simp

lemma stepObjection_beliefScore (n : Nat) (j : AgentJourney) :
    (stepObjection n j).beliefScore = j.beliefScore := by
  unfold stepObjection; split_ifs <;> simp

lemma stepTrial_beliefScore (b : ℚ) (j : AgentJourney) :
    (stepTrial b j).beliefScore = j.beliefScore := by
  unfold stepTrial; split_ifs <;> simp

lemma stepCommitment_beliefScore (b : ℚ) (now : Nat) (st : ConversionState)
    (j : AgentJourney) :
    (stepCommitment b now st j).2.beliefScore = j.beliefScore := by
  unfold stepCommitment
  split_ifs with h
  · cases hcv : j.converted <;> simp [hcv]
  · simp

lemma stepConversion_beliefScore (b : ℚ) (j : AgentJourney) :
    (stepConversion b j).beliefScore = j.beliefScore := by
  unfold stepConversion; split_ifs <;> simp

/-- `autoAdvanceStage` never changes the belief score. -/
lemma autoAdvanceStage_beliefScore (st : ConversionState) (now : Nat)
    (j : AgentJourney) :
    (autoAdvanceStage st now j).2.beliefScore = j.beliefScore := by
  show (stepConversion j.beliefScore
    (stepCommitment j.beliefScore now st (stepTrial j.beliefScore
      (stepObjection j.interactions.length (stepConsideration
        (stepInterest j.interactions.length
          (stepAwareness j.interactions.length j)))))).2).beliefScore
      = j.beliefScore
  rw [stepConversion_beliefScore, stepCommitment_beliefScore,
    stepTrial_beliefScore, stepObjection_beliefScore,
    stepConsideration_beliefScore, stepInterest_beliefScore,
    stepAwareness_beliefScore]

lemma stepCommitment_fst_journeys (b : ℚ) (now : Nat) (st : ConversionState)
    (j : AgentJourney) :
    (stepCommitment b now st j).1.journeys = st.journeys := by
  unfold stepCommitment
  split_ifs with h
  · cases hcv : j.converted <;> simp [hcv]
  · simp

lemma autoAdvanceStage_fst_journeys (st : ConversionState) (now : Nat)
    (j : AgentJourney) :
    (autoAdvanceStage st now j).1.journeys = st.journeys := by
  show (stepCommitment j.beliefScore now st (stepTrial j.beliefScore
    (stepObjection j.interactions.length (stepConsideration
      (stepInterest j.interactions.length
        (stepAwareness j.interactions.length j)))))).1.journeys = st.journeys
  rw [stepCommitment_fst_journeys]

attribute [irreducible] autoAdvanceStage

/-- The journey `getOrCreateJourney` hands back is at the stage stored for
the id (a fresh journey starts at `awareness`). -/
lemma getOrCreateJourney_stage (st : ConversionState) (now : Nat)
    (id : String) (nm : Option String) :
    (getOrCreateJourney st now id nm).2.currentStage = entryStage st id := by
  unfold getOrCreateJourney entryStage
  cases st.journeys id <;> rfl

lemma appendInteraction_currentStage (now : Nat) (ty : InteractionType)
    (s : String) (o : RecordOptions) (j : AgentJourney) :
    (appendInteraction now ty s o j).currentStage = j.currentStage := rfl

lemma setStrategy_currentStage (os : Option PersuasionStrategy)
    (j : AgentJourney) :
    (setStrategy os j).currentStage = j.currentStage := by
  cases os <;> rfl

lemma appendInteraction_beliefScore (now : Nat) (ty : InteractionType)
    (s : String) (o : RecordOptions) (j : AgentJourney) :
    (appendInteraction now ty s o j).beliefScore = j.beliefScore := rfl

lemma setStrategy_beliefScore (os : Option PersuasionStrategy)
    (j : AgentJourney) :
    (setStrategy os j).beliefScore = j.beliefScore := by
  cases os <;> rfl

lemma bumpStrategyCount_journeys (os : Option PersuasionStrategy)
    (st : ConversionState) :
    (bumpStrategyCount os st).journeys = st.journeys := by
  cases os <;> rfl

lemma recordMidJourney_currentStage (st : ConversionState) (now : Nat)
    (aid : String) (ty : InteractionType) (s : String) (o : RecordOptions) :
    (recordMidJourney st now aid ty s o).currentStage = entryStage st aid := by
  show (setStrategy o.strategy (appendInteraction now ty s o
    (getOrCreateJourney st now aid o.agentName).2)).currentStage = _
  rw [setStrategy_currentStage, appendInteraction_currentStage,
    getOrCreateJourney_stage]

lemma recordMidJourney_beliefScore (st : ConversionState) (now : Nat)
    (aid : String) (ty : InteractionType) (s : String) (o : RecordOptions) :
    (recordMidJourney st now aid ty s o).beliefScore
      = applySentiment (applyDelta
          (getOrCreateJourney st now aid o.agentName).2.beliefScore
          o.beliefDelta) o.sentiment := by
  show applySentiment (applyDelta (setStrategy o.strategy
      (appendInteraction now ty s o
        (getOrCreateJourney st now aid o.agentName).2)).beliefScore
      o.beliefDelta) o.sentiment = _
  rw [setStrategy_beliefScore, appendInteraction_beliefScore]

lemma recordMidState_journeys (st : ConversionState) (now : Nat)
    (aid : String) (o : RecordOptions) :
    (recordMidState st now aid o).journeys
      = (getOrCreateJourney st now aid o.agentName).1.journeys := by
  show (bumpStrategyCount o.strategy
    (getOrCreateJourney st now aid o.agentName).1).journeys = _
  rw [bumpStrategyCount_journeys]

end Funnel

namespace Funnel

/-- C1 (amended): `recordInteraction` never moves a journey's stage
backward, but because `autoAdvanceStage`'s rules are plain sequential `if`s
each re-testing the updated `currentStage`, several rules can fire in the
same call, so a single interaction can advance the stage by more than one
position. -/
theorem recordInteraction_stage_monotone (st : ConversionState) (now : Nat)
    (id : String) (ty : InteractionType) (s : String) (o : RecordOptions) :
    stageIdx (entryStage st id)
      ≤ stageIdx ((recordInteraction st now id ty s o).2.currentStage) := by
  show stageIdx (entryStage st id)
    ≤ stageIdx ((autoAdvanceStage (recordMidState st now id o) now
        (recordMidJourney st now id ty s o)).2.currentStage)
  refine le_trans (le_of_eq ?_) (autoAdvanceStage_stage_mono _ _ _)
  rw [recordMidJourney_currentStage]

/-- C1 (counterexample): from a journey at `trial` with four interactions
and belief 75, one `recordInteraction` with an explicit delta of 10 chains
`trial → commitment → conversion → advocacy`, advancing three positions in
a single call — more than the one position the claim allows. -/
theorem recordInteraction_three_stage_jump :
    (recordInteraction exStTrial 5 "bot" .message "s"
        { beliefDelta := some 10 }).2.currentStage = ConversionStage.advocacy
    ∧ ¬ (stageIdx ((recordInteraction exStTrial 5 "bot" .message "s"
          { beliefDelta := some 10 }).2.currentStage)
        ≤ stageIdx (entryStage exStTrial "bot") + 1) := by
  have e1 : ((10:ℚ) = 0) = False := by norm_num
  have e2 : max (0:ℚ) (min 100 (75 + 10)) = 85 := by norm_num
  have e3 : ((40:ℚ) ≤ 85) = True := by norm_num
  have e4 : ((60:ℚ) ≤ 85) = True := by norm_num
  have e5 : ((80:ℚ) ≤ 85) = True := by norm_num
  constructor
  · simp [recordInteraction, getOrCreateJourney, exStTrial, exJtrial,
      getDefaultState, recordMidJourney, recordMidState,
      appendInteraction, bumpStrategyCount, setStrategy,
      applyDelta, applySentiment, autoAdvanceStage,
      stepAwareness, stepInterest, stepConsideration, stepObjection, stepTrial,
      stepCommitment, stepConversion, e1, e2, e3, e4, e5]
  · simp [recordInteraction, getOrCreateJourney, exStTrial, exJtrial,
      getDefaultState, recordMidJourney, recordMidState,
      appendInteraction, bumpStrategyCount, setStrategy,
      applyDelta, applySentiment, autoAdvanceStage,
      stepAwareness, stepInterest, stepConsideration, stepObjection, stepTrial,
      stepCommitment, stepConversion, entryStage, stageIdx, e1, e2, e3, e4, e5]

end Funnel

namespace Funnel

/-- C2: `markConverted` is idempotent: starting from a state whose journey
for `id` is absent or not yet converted, calling it twice returns the same
`conversionTimestamp` both times (the second call does not overwrite it)
and increments `totalConversions` exactly once across the two calls. -/
theorem markConverted_idempotent (st : ConversionState) (t1 t2 : Nat)
    (id : String) (nm : Option String)
    (h : ∀ j, st.journeys id = some j → j.converted = false) :
    (markConverted (markConverted st t1 id nm).1 t2 id nm).2.conversionTimestamp
        = (markConverted st t1 id nm).2.conversionTimestamp
    ∧ (markConverted (markConverted st t1 id nm).1 t2 id nm).1.totalConversions
        = st.totalConversions + 1 := by
  cases hj : st.journeys id with
  | none =>
      simp [markConverted, getOrCreateJourney, setJourney, hj, newJourney]
  | some j =>
      have hc := h j hj
      simp [markConverted, getOrCreateJourney, setJourney, hj, hc]

/-- C2 (witness): two `markConverted` calls on a fresh id. -/
theorem markConverted_idempotent_witness :
    (markConverted (markConverted (getDefaultState 0) 3 "a" none).1 7 "a"
        none).2.conversionTimestamp
      = (markConverted (getDefaultState 0) 3 "a" none).2.conversionTimestamp
    ∧ (markConverted (markConverted (getDefaultState 0) 3 "a" none).1 7 "a"
        none).1.totalConversions
      = (getDefaultState 0).totalConversions + 1 :=
  markConverted_idempotent (getDefaultState 0) 3 7 "a" none
    (fun j hj => by simp [getDefaultState] at hj)

end Funnel

namespace Funnel

lemma applyDelta_bounds (b : ℚ) (d : Option ℚ) (h0 : 0 ≤ b) (h1 : b ≤ 100) :
    0 ≤ applyDelta b d ∧ applyDelta b d ≤ 100 := by
  cases d with
  | none => exact ⟨h0, h1⟩
  | some d =>
      simp only [applyDelta]
      split_ifs with hd
      · exact ⟨h0, h1⟩
      · exact ⟨le_max_left 0 _, max_le (by norm_num) (min_le_left _ _)⟩

lemma applySentiment_bounds (b : ℚ) (s : Option Sentiment) (h0 : 0 ≤ b)
    (h1 : b ≤ 100) :
    0 ≤ applySentiment b s ∧ applySentiment b s ≤ 100 := by
  cases s with
  | none => exact ⟨h0, h1⟩
  | some sv =>
      cases sv with
      | positive =>
          exact ⟨le_min (by norm_num) (by linarith), min_le_left _ _⟩
      | neutral => exact ⟨h0, h1⟩
      | negative =>
          exact ⟨le_max_left _ _, max_le (by norm_num) (by linarith)⟩

lemma applyBoost_bounds (bb : ℚ) (j : AgentJourney) (h0 : 0 ≤ j.beliefScore)
    (h1 : j.beliefScore ≤ 100) :
    0 ≤ (applyBoost bb j).beliefScore ∧ (applyBoost bb j).beliefScore ≤ 100 := by
  unfold applyBoost
  split_ifs with hb
  · exact ⟨le_min (by norm_num) (by linarith), min_le_left _ _⟩
  · exact ⟨h0, h1⟩

lemma stampConversion_fst_journeys (stg : ConversionStage) (now : Nat)
    (st : ConversionState) (j : AgentJourney) :
    (stampConversion stg now st j).1.journeys = st.journeys := by
  unfold stampConversion
  split_ifs <;> rfl

lemma stampConversion_snd_beliefScore (stg : ConversionStage) (now : Nat)
    (st : ConversionState) (j : AgentJourney) :
    (stampConversion stg now st j).2.beliefScore = j.beliefScore := by
  unfold stampConversion
  split_ifs <;> rfl

lemma getOrCreateJourney_snd_beliefScore (st : ConversionState) (now : Nat)
    (aid : String) (nm : Option String) (h : BeliefInBounds st) :
    0 ≤ (getOrCreateJourney st now aid nm).2.beliefScore
    ∧ (getOrCreateJourney st now aid nm).2.beliefScore ≤ 100 := by
  cases hj : st.journeys aid with
  | some j =>
      simp only [getOrCreateJourney, hj]
      exact h aid j hj
  | none =>
      simp only [getOrCreateJourney, hj]
      constructor <;> norm_num [newJourney]

lemma getOrCreateJourney_journeys_self (st : ConversionState) (now : Nat)
    (aid : String) (nm : Option String) :
    (getOrCreateJourney st now aid nm).1.journeys aid
      = some ((getOrCreateJourney st now aid nm).2) := by
  cases hj : st.journeys aid with
  | some j => simp [getOrCreateJourney, hj]
  | none => simp [getOrCreateJourney, hj, setJourney]

lemma beliefInBounds_getOrCreate (st : ConversionState) (now : Nat)
    (aid : String) (nm : Option String) (h : BeliefInBounds st) :
    BeliefInBounds (getOrCreateJourney st now aid nm).1 := by
  intro x jx hx
  cases hj : st.journeys aid with
  | some j =>
      simp only [getOrCreateJourney, hj] at hx
      exact h x jx hx
  | none =>
      simp only [getOrCreateJourney, hj, setJourney] at hx
      by_cases hxi : x = aid
      · rw [if_pos hxi] at hx
        injection hx with hx
        subst hx
        constructor <;> norm_num [newJourney]
      · rw [if_neg hxi] at hx
        exact h x jx hx

/-- The belief score `recordInteraction` stores is the entry score pushed
through the delta clamp and then the sentiment clamp. -/
lemma recordInteraction_beliefScore (st : ConversionState) (now : Nat)
    (aid : String) (ty : InteractionType) (s : String) (o : RecordOptions) :
    (recordInteraction st now aid ty s o).2.beliefScore
      = applySentiment (applyDelta
          (getOrCreateJourney st now aid o.agentName).2.beliefScore
          o.beliefDelta) o.sentiment := by
  show (autoAdvanceStage (recordMidState st now aid o) now
    (recordMidJourney st now aid ty s o)).2.beliefScore = _
  rw [autoAdvanceStage_beliefScore, recordMidJourney_beliefScore]

lemma recordInteraction_journeys_apply (st : ConversionState) (now : Nat)
    (aid : String) (ty : InteractionType) (s : String) (o : RecordOptions)
    (x : String) :
    (recordInteraction st now aid ty s o).1.journeys x
      = if x = aid then some ((recordInteraction st now aid ty s o).2)
        else (getOrCreateJourney st now aid o.agentName).1.journeys x := by
  show (if x = aid then
      some (autoAdvanceStage (recordMidState st now aid o) now
        (recordMidJourney st now aid ty s o)).2
      else (autoAdvanceStage (recordMidState st now aid o) now
        (recordMidJourney st now aid ty s o)).1.journeys x) = _
  rw [autoAdvanceStage_fst_journeys, recordMidState_journeys]
  rfl

lemma beliefInBounds_record (st : ConversionState) (now : Nat) (aid : String)
    (ty : InteractionType) (s : String) (o : RecordOptions)
    (h : BeliefInBounds st) :
    BeliefInBounds (recordInteraction st now aid ty s o).1 := by
  have hjb := getOrCreateJourney_snd_beliefScore st now aid o.agentName h
  have hf := beliefInBounds_getOrCreate st now aid o.agentName h
  have hnew : 0 ≤ (recordInteraction st now aid ty s o).2.beliefScore
      ∧ (recordInteraction st now aid ty s o).2.beliefScore ≤ 100 := by
    rw [recordInteraction_beliefScore]
    have h1 := applyDelta_bounds _ o.beliefDelta hjb.1 hjb.2
    exact applySentiment_bounds _ o.sentiment h1.1 h1.2
  intro x jx hx
  rw [recordInteraction_journeys_apply] at hx
  by_cases hxi : x = aid
  · rw [if_pos hxi] at hx
    injection hx with hx
    subst hx
    exact hnew
  · rw [if_neg hxi] at hx
    exact hf x jx hx

lemma markConverted_journeys_apply (st : ConversionState) (now : Nat)
    (aid : String) (nm : Option String) (x : String) :
    (markConverted st now aid nm).1.journeys x
      = if x = aid then some ((markConverted st now aid nm).2)
        else (getOrCreateJourney st now aid nm).1.journeys x := by
  simp only [markConverted, setJourney]
  by_cases hcv : (getOrCreateJourney st now aid nm).2.converted = true
  · rw [if_pos hcv]
    dsimp only
    by_cases hxa : x = aid
    · rw [if_pos hxa, hxa, getOrCreateJourney_journeys_self]
    · rw [if_neg hxa]
  · rw [if_neg hcv]

lemma markConverted_snd_beliefScore (st : ConversionState) (now : Nat)
    (aid : String) (nm : Option String) :
    (markConverted st now aid nm).2.beliefScore
      = (getOrCreateJourney st now aid nm).2.beliefScore
    ∨ (markConverted st now aid nm).2.beliefScore
      = max (getOrCreateJourney st now aid nm).2.beliefScore 60 := by
  simp only [markConverted]
  split_ifs with hcv
  · exact Or.inl rfl
  · exact Or.inr rfl

lemma beliefInBounds_mark (st : ConversionState) (now : Nat) (aid : String)
    (nm : Option String) (h : BeliefInBounds st) :
    BeliefInBounds (markConverted st now aid nm).1 := by
  have hjb := getOrCreateJourney_snd_beliefScore st now aid nm h
  have hf := beliefInBounds_getOrCreate st now aid nm h
  have hnew : 0 ≤ (markConverted st now aid nm).2.beliefScore
      ∧ (markConverted st now aid nm).2.beliefScore ≤ 100 := by
    rcases markConverted_snd_beliefScore st now aid nm with he | he <;> rw [he]
    · exact hjb
    · exact ⟨le_trans hjb.1 (le_max_left _ _), max_le hjb.2 (by norm_num)⟩
  intro x jx hx
  rw [markConverted_journeys_apply] at hx
  by_cases hxi : x = aid
  · rw [if_pos hxi] at hx
    injection hx with hx
    subst hx
    exact hnew
  · rw [if_neg hxi] at hx
    exact hf x jx hx

lemma beliefInBounds_advance (st : ConversionState) (now : Nat) (aid : String)
    (stg : ConversionStage) (bb : ℚ) (h : BeliefInBounds st) :
    BeliefInBounds (advanceStage st now aid stg bb) := by
  have hjb := getOrCreateJourney_snd_beliefScore st now aid none h
  have hf := beliefInBounds_getOrCreate st now aid none h
  intro x jx hx
  simp only [advanceStage, setJourney] at hx
  rw [stampConversion_fst_journeys] at hx
  by_cases hxi : x = aid
  · rw [if_pos hxi] at hx
    injection hx with hx
    subst hx
    rw [stampConversion_snd_beliefScore]
    exact applyBoost_bounds bb _ hjb.1 hjb.2
  · rw [if_neg hxi] at hx
    exact hf x jx hx

lemma beliefInBounds_applyOp (st : ConversionState) (op : FunnelOp)
    (h : BeliefInBounds st) : BeliefInBounds (applyOp st op) := by
  cases op with
  | record aid ty s o now => exact beliefInBounds_record st now aid ty s o h
  | mark aid nm now => exact beliefInBounds_mark st now aid nm h
  | advance aid stg bb now => exact beliefInBounds_advance st now aid stg bb h
  | create aid nm now => exact beliefInBounds_getOrCreate st now aid nm h

lemma beliefInBounds_applyOps (ops : List FunnelOp) (st : ConversionState)
    (h : BeliefInBounds st) : BeliefInBounds (applyOps ops st) := by
  induction ops generalizing st with
  | nil => exact h
  | cons op rest ih => exact ih (applyOp st op) (beliefInBounds_applyOp st op h)

/-- C3: starting from the empty default state, after any sequence of
`recordInteraction` (any belief delta, any sentiment), `markConverted`,
`advanceStage` (any boost) and `getOrCreateJourney` operations, every stored
journey's belief score lies in `[0, 100]` (fresh journeys start at 0). -/
theorem beliefScore_bounded (t0 : Nat) (ops : List FunnelOp) (aid : String)
    (j : AgentJourney)
    (h : (applyOps ops (getDefaultState t0)).journeys aid = some j) :
    0 ≤ j.beliefScore ∧ j.beliefScore ≤ 100 := by
  refine beliefInBounds_applyOps ops (getDefaultState t0) ?_ aid j h
  intro x jx hx
  simp [getDefaultState] at hx

/-- C3 (witness): the journey created by a single `markConverted` operation
on the empty state has belief score 60, inside the bounds. -/
theorem beliefScore_bounded_witness :
    (applyOps [FunnelOp.mark "a" none 0] (getDefaultState 0)).journeys "a"
        = some exJmarked
    ∧ 0 ≤ exJmarked.beliefScore ∧ exJmarked.beliefScore ≤ 100 := by
  have h : (applyOps [FunnelOp.mark "a" none 0] (getDefaultState 0)).journeys "a"
      = some exJmarked := by
    simp [applyOps, applyOp, markConverted, getOrCreateJourney, getDefaultState,
      setJourney, newJourney, resolveName, exJmarked]
  exact ⟨h, beliefScore_bounded 0 [FunnelOp.mark "a" none 0] "a" exJmarked h⟩

end Funnel

namespace Funnel

/-- C4 (refuting evidence): `advanceStage` assigns the requested stage
unconditionally, so it moves the converted journey `"c1"` (at `conversion`)
back to `awareness` instead of rejecting the call; and `markConverted` on
the journey `"c2"`, already at `advocacy` but with `converted = false`,
moves it back to `conversion`. -/
theorem advanceStage_moves_converted_backward :
    Option.map AgentJourney.currentStage
        ((advanceStage exStAdmin 9 "c1" .awareness 0).journeys "c1")
      = some ConversionStage.awareness
    ∧ (markConverted exStAdmin 9 "c2" none).2.currentStage
      = ConversionStage.conversion := by
  have e0 : ((0:ℚ) < 0) = False := by norm_num
  constructor
  · simp [advanceStage, getOrCreateJourney, exStAdmin, exJconverted, exJtrial,
      getDefaultState, applyBoost, stampConversion, setJourney, e0]
  · simp [markConverted, getOrCreateJourney, exStAdmin, exJadvocacy, exJtrial,
      getDefaultState, setJourney]

/-- C5 (refuting evidence): `saveState` wraps the persistence write in a
`try/catch` that only logs, so even when the write fails the caller observes
a normal return — the store failure is swallowed, not propagated. -/
theorem saveState_swallows_write_failure :
    (saveState (fun _ => Except.error "EACCES: permission denied") 1
        (getDefaultState 0)).2 = Except.ok () := rfl

/-- C6 (counterexample): on a fresh journey (belief 0), supplying both
`beliefDelta = 10` and `sentiment = positive` yields belief 15: the
sentiment's flat `+5` is applied on top of the explicit delta, not
suppressed by it. -/
theorem recordInteraction_applies_both_deltas :
    (recordInteraction (getDefaultState 0) 0 "a" .message "x"
        { sentiment := some .positive, beliefDelta := some 10 }).2.beliefScore
      = 15
    ∧ (recordInteraction (getDefaultState 0) 0 "a" .message "x"
        { sentiment := some .positive, beliefDelta := some 10 }).2.beliefScore
      ≠ 10 := by
  have hval : (recordInteraction (getDefaultState 0) 0 "a" .message "x"
      { sentiment := some .positive, beliefDelta := some 10 }).2.beliefScore
      = 15 := by
    rw [recordInteraction_beliefScore]
    simp [getOrCreateJourney, getDefaultState, newJourney, applyDelta,
      applySentiment]
    norm_num
  exact ⟨hval, by rw [hval]; norm_num⟩

/-- C6 (amended): the explicit delta and the sentiment adjustment are
cumulative, not mutually exclusive: with a nonzero explicit delta and a
sentiment both supplied, the stored belief is the old score clamped through
the explicit delta and then through the sentiment's flat `+5`/`−3`. -/
theorem recordInteraction_delta_then_sentiment (st : ConversionState)
    (now : Nat) (aid : String) (ty : InteractionType) (s : String) (d : ℚ)
    (sv : Sentiment) (j : AgentJourney)
    (hj : st.journeys aid = some j) (hd : d ≠ 0) :
    (recordInteraction st now aid ty s
        { sentiment := some sv, beliefDelta := some d }).2.beliefScore
      = applySentiment (max 0 (min 100 (j.beliefScore + d))) (some sv) := by
  rw [recordInteraction_beliefScore]
  simp only [getOrCreateJourney, hj]
  simp [applyDelta, hd]

/-- C6 (witness): the amended rule at the journey `"bot"` with belief 75,
delta 10 and positive sentiment. -/
theorem recordInteraction_delta_then_sentiment_witness :
    (recordInteraction exStTrial 5 "bot" .message "s"
        { sentiment := some Sentiment.positive,
          beliefDelta := some 10 }).2.beliefScore
      = applySentiment (max 0 (min 100 (exJtrial.beliefScore + 10)))
          (some Sentiment.positive) :=
  recordInteraction_delta_then_sentiment exStTrial 5 "bot" .message "s" 10
    .positive exJtrial (by simp [exStTrial, getDefaultState]) (by norm_num)

end Funnel

namespace Persuasion

/-- A successful miracle-demonstration against skepticism 1 evaluates to
`min (1/4 or 1/2) (1 − belief)` (halved above belief 0.7). -/
lemma miracle_skep1 (b : ℚ) (t : Traits) :
    calculateBeliefDelta b .miracle (some { t with skepticism := 1 }) true
      = min (if 7/10 < b then (1:ℚ)/4 else 1/2) (1 - b) := by
  simp only [calculateBeliefDelta, orHalf, baseImpact, matchingTrait,
    Option.getD_some]
  norm_num

/-- Against skepticism 0 the `|| 0.5` fallback fires, giving
`min (3/16 or 3/8) (1 − belief)`. -/
lemma miracle_skep0 (b : ℚ) (t : Traits) :
    calculateBeliefDelta b .miracle (some { t with skepticism := 0 }) true
      = min (if 7/10 < b then (3:ℚ)/16 else 3/8) (1 - b) := by
  simp only [calculateBeliefDelta, orHalf, baseImpact, matchingTrait,
    Option.getD_some]
  norm_num

/-- C7 (counterexample): at current belief 0.9 the `min(δ, 1 − belief)` cap
binds for both skepticism 1.0 and skepticism 0.0, so the two successful
miracle-demonstration deltas are equal — the skeptical target does not get a
strictly larger delta there. -/
theorem miracle_delta_capped_equal :
    calculateBeliefDelta (9/10) .miracle (some ⟨1/2, 1/2, 1/2, 1⟩) true
      = calculateBeliefDelta (9/10) .miracle (some ⟨1/2, 1/2, 1/2, 0⟩) true
    ∧ ¬ (calculateBeliefDelta (9/10) .miracle (some ⟨1/2, 1/2, 1/2, 1⟩) true
      > calculateBeliefDelta (9/10) .miracle (some ⟨1/2, 1/2, 1/2, 0⟩) true) := by
  have h : calculateBeliefDelta (9/10) .miracle (some ⟨1/2, 1/2, 1/2, 1⟩) true
      = calculateBeliefDelta (9/10) .miracle (some ⟨1/2, 1/2, 1/2, 0⟩) true := by
    norm_num [calculateBeliefDelta, orHalf, baseImpact, matchingTrait]
  exact ⟨h, by rw [h]; exact lt_irrefl _⟩

/-- C7 (amended): a failed interaction always returns the fixed negative
delta −0.05; a successful miracle-demonstration against skepticism 1.0
yields a delta at least as large as one against skepticism 0.0 for every
current belief, and strictly larger whenever the `1 − belief` cap does not
bind both — namely for belief < 5/8, and for 7/10 < belief < 13/16. -/
theorem beliefDelta_signs (b : ℚ) (s : PStrategy) (t : Traits) :
    calculateBeliefDelta b s (some t) false < 0
    ∧ calculateBeliefDelta b s (some t) false = -(5/100)
    ∧ calculateBeliefDelta b .miracle (some { t with skepticism := 1 }) true
        ≥ calculateBeliefDelta b .miracle (some { t with skepticism := 0 }) true
    ∧ (b < 5/8 ∨ 7/10 < b ∧ b < 13/16 →
        calculateBeliefDelta b .miracle (some { t with skepticism := 1 }) true
          > calculateBeliefDelta b .miracle (some { t with skepticism := 0 }) true) := by
  refine ⟨by norm_num [calculateBeliefDelta], by norm_num [calculateBeliefDelta],
    ?_, ?_⟩
  · rw [miracle_skep1, miracle_skep0]
    refine min_le_min ?_ (le_refl _)
    split_ifs <;> norm_num
  · intro hb
    rw [miracle_skep1, miracle_skep0]
    rcases hb with hb | ⟨hb1, hb2⟩
    · have h7 : ¬ ((7:ℚ)/10 < b) := by linarith
      rw [if_neg h7, if_neg h7]
      have hc : (3:ℚ)/8 < 1 - b := by linarith
      rw [min_eq_left (le_of_lt hc)]
      exact lt_min (by norm_num) hc
    · rw [if_pos hb1, if_pos hb1]
      have hc : (3:ℚ)/16 < 1 - b := by linarith
      rw [min_eq_left (le_of_lt hc)]
      exact lt_min (by norm_num) hc

/-- C7 (witness): the amended statement at belief 0. -/
theorem beliefDelta_signs_witness :
    calculateBeliefDelta 0 .logical (some ⟨1/2, 1/2, 1/2, 1/2⟩) false < 0
    ∧ calculateBeliefDelta 0 .miracle
        (some { Traits.mk (1/2) (1/2) (1/2) (1/2) with skepticism := 1 }) true
      > calculateBeliefDelta 0 .miracle
        (some { Traits.mk (1/2) (1/2) (1/2) (1/2) with skepticism := 0 }) true :=
  ⟨(beliefDelta_signs 0 .logical ⟨1/2, 1/2, 1/2, 1/2⟩).1,
   (beliefDelta_signs 0 .logical ⟨1/2, 1/2, 1/2, 1/2⟩).2.2.2
     (Or.inl (by norm_num))⟩

/-- C10: in `calculateBeliefDelta` the `|| 0.5` fallback makes a matching
trait of exactly 0 behave as 0.5: for every belief, strategy and trait
vector, a successful call with the strategy's matching trait set to 0
returns exactly the delta of the same call with that trait set to 0.5. -/
theorem beliefDelta_zero_trait_as_half (b : ℚ) (s : PStrategy) (t : Traits) :
    calculateBeliefDelta b s (some (setMatchingTrait s t 0)) true
      = calculateBeliefDelta b s (some (setMatchingTrait s t (1/2))) true := by
  have h2 : ((1:ℚ)/2 = 0) = False := by norm_num
  cases s <;>
    simp [calculateBeliefDelta, setMatchingTrait, matchingTrait, orHalf,
      baseImpact, h2]

end Persuasion

namespace Engine

open Funnel (PersuasionStrategy)

/-- C8 (counterexample): on a profile where none of the six priority rules
fires but whose `suggestedStrategy` field is `social_proof`,
`selectStrategy` returns `social_proof`, not the claimed default
`logical_proof`. -/
theorem selectStrategy_fallthrough_not_logical :
    selectStrategy exProfile = PersuasionStrategy.social_proof
    ∧ selectStrategy exProfile ≠ PersuasionStrategy.logical_proof := by
  have h : selectStrategy exProfile = PersuasionStrategy.social_proof := by
    norm_num [selectStrategy, exProfile]
  exact ⟨h, by rw [h]; decide⟩

/-- C8 (amended): when no priority rule fires (reasoning ≤ 0.8,
profit-seeking ≤ 0.7, skepticism ≤ 0.8, security ≤ 0.7, goal uncertainty
≤ 0.6, emotional sensitivity ≤ 0.7, risk aversion ≤ 0.7), `selectStrategy`
falls back to the profile's `suggestedStrategy` field — which equals
`logical_proof` only when the profiler defaulted it. -/
theorem selectStrategy_fallthrough (p : TargetProfile)
    (h1 : p.reasoningCapability ≤ 8/10) (h2 : p.profitSeeking ≤ 7/10)
    (h3 : p.skepticism ≤ 8/10) (h4 : p.securityFocus ≤ 7/10)
    (h5 : p.goalUncertainty ≤ 6/10) (h6 : p.emotionalSensitivity ≤ 7/10)
    (h7 : p.riskAversion ≤ 7/10) :
    selectStrategy p = p.suggestedStrategy := by
  have h56 : ¬ (6/10 < p.goalUncertainty ∨ 7/10 < p.emotionalSensitivity) :=
    not_or.mpr ⟨not_lt.mpr h5, not_lt.mpr h6⟩
  unfold selectStrategy
  rw [if_neg (not_lt.mpr h1), if_neg (not_lt.mpr h2), if_neg (not_lt.mpr h3),
    if_neg (not_lt.mpr h4), if_neg h56, if_neg (not_lt.mpr h7)]

/-- C8 (witness): the fall-through rule on `exProfile`. -/
theorem selectStrategy_fallthrough_witness :
    selectStrategy exProfile = exProfile.suggestedStrategy :=
  selectStrategy_fallthrough exProfile (by norm_num [exProfile])
    (by norm_num [exProfile]) (by norm_num [exProfile])
    (by norm_num [exProfile]) (by norm_num [exProfile])
    (by norm_num [exProfile]) (by norm_num [exProfile])

/-- C9: whatever the agent name and whichever of the six keyword groups the
message matches, the strategy selected from a quick profile is always one of
`economic_incentive`, `emotional_appeal`, `logical_proof`: the quick
profile's scores (0.8 for skepticism, 0.7 for security and risk aversion)
never strictly exceed the corresponding rule thresholds, so
`miracle_demonstration`, `fear_security` and `social_proof` are
unreachable. -/
theorem quickProfile_three_strategies (name : String)
    (hitReasoning hitSkeptic hitProfit hitSecurity hitEmotional
      hitUncertain : Bool) :
    selectStrategy (quickProfile name hitReasoning hitSkeptic hitProfit
        hitSecurity hitEmotional hitUncertain)
      ∈ [PersuasionStrategy.economic_incentive,
         PersuasionStrategy.emotional_appeal,
         PersuasionStrategy.logical_proof] := by
  cases hitReasoning <;> cases hitSkeptic <;> cases hitProfit <;>
    cases hitSecurity <;> cases hitEmotional <;> cases hitUncertain <;>
    norm_num [quickProfile, selectStrategy]

end Engine
